import Mathlib

/-!
Shallow embedding of the memex core (identifier validation, query/schema
operation models, SQL/DDL generation, CRUD and schema executors,
transactional connection scope, schema introspection), together with
theorems settling the specification claims about it.

Python-level conventions captured here:
* `dict` values are modelled as association lists in insertion order with
  distinct keys (`List.Nodup` on the keys where it matters);
* raising an exception is modelled with `Except`/`Option` error results;
* each `conn.execute(sql, params)` call is recorded in an explicit trace of
  `(sql, params)` pairs, so "statement X was (not) executed" is statable.
-/

namespace Memex

/-- A Python runtime value as it can appear in operation data: `None`,
`int`, `str` or `bool`.  Values of this type are only ever passed through
to parameter binding, never interpreted. -/
inductive PyValue where
  | none
  | int (i : Int)
  | str (s : String)
  | bool (b : Bool)
deriving DecidableEq, Repr

instance {ε α : Type} [DecidableEq ε] [DecidableEq α] : DecidableEq (Except ε α) := fun x y =>
  match x, y with
  | .ok a, .ok b =>
    if h : a = b then isTrue (by rw [h]) else isFalse (by intro he; injection he; contradiction)
  | .error a, .error b =>
    if h : a = b then isTrue (by rw [h]) else isFalse (by intro he; injection he; contradiction)
  | .ok _, .error _ => isFalse (by intro he; cases he)
  | .error _, .ok _ => isFalse (by intro he; cases he)

/-! ## The identifier pattern `^[a-zA-Z_][a-zA-Z0-9_]*$`

Both `memex/ops/query.py` and `memex/ops/schema.py` compile the same regex
`_VALID_NAME_PATTERN = re.compile(r"^[a-zA-Z_][a-zA-Z0-9_]*$")` and test
names with `_VALID_NAME_PATTERN.match(name)`.  The matcher is embedded
operationally below.  Note the semantics of `$` in the source's regex
engine: it matches at the end of the string, or just before a newline that
is the last character of the string. -/

/-- First-character class `[a-zA-Z_]` (ASCII letters and underscore). -/
def headOk (c : Char) : Bool :=
  c.isAlpha || c = '_'

/-- Rest-character class `[a-zA-Z0-9_]` (ASCII alphanumerics and underscore). -/
def tailOk (c : Char) : Bool :=
  c.isAlphanum || c = '_'

/-- `$` of the source's regex engine, at the given remainder of the input:
matches when the remainder is empty or is exactly one final newline. -/
def dollarAt (rest : List Char) : Bool :=
  rest = ([] : List Char) || rest = ['\n']

/-- Backtracking match of `[a-zA-Z0-9_]*$` against the remainder. -/
def matchTailDollar : List Char → Bool
  | [] => true
  | c :: cs => dollarAt (c :: cs) || (tailOk c && matchTailDollar cs)

/-- `_VALID_NAME_PATTERN.match(name)` as a Boolean: `^[a-zA-Z_]` on the
first character, then `[a-zA-Z0-9_]*$` on the rest. -/
def reMatchValidName (s : String) : Bool :=
  match s.data with
  | [] => false
  | c :: cs => headOk c && matchTailDollar cs

/-- Declarative reading of the pattern: a first character in `[a-zA-Z_]`
followed by characters in `[a-zA-Z0-9_]`, optionally ended by one newline
(the `$`-before-trailing-newline rule of the source's regex engine). -/
def ValidNameChars (l : List Char) : Prop :=
  match l with
  | [] => False
  | c :: cs => headOk c = true ∧ ∀ x ∈ cs, tailOk x = true

/-- Declarative form of `_VALID_NAME_PATTERN.match`. -/
def MatchesNamePattern (s : String) : Prop :=
  ValidNameChars s.data ∨ ∃ l, s.data = l ++ ['\n'] ∧ ValidNameChars l

namespace Query

/-- `memex/ops/query.py` `_validate_name`: returns the name unchanged when
it is non-empty and matches the pattern, otherwise raises
`ValueError(f"Invalid identifier: {name!r}")`.  A pure function: the
embedding has no state to affect.  (`{name!r}` is rendered as the name
between single quotes; the escaping `repr` applies inside the name is not
exercised by any claim.) -/
def _validate_name (name : String) : Except String String :=
  if name = "" || !reMatchValidName name then
    Except.error ("Invalid identifier: '" ++ name ++ "'")
  else
    Except.ok name

end Query

namespace Schema

/-- `memex/ops/schema.py` `InvalidNameError(ValueError)`: the single error
kind raised by the schema-side identifier validator; it carries only a
message. -/
inductive InvalidNameError where
  | mk (msg : String)
deriving DecidableEq, Repr

/-- `memex/ops/schema.py` `_validate_name`: empty names and pattern
mismatches both raise `InvalidNameError`, with distinct message texts. -/
def _validate_name (name entity : String) : Except InvalidNameError String :=
  if name = "" then
    Except.error (InvalidNameError.mk (entity ++ " name cannot be empty"))
  else if !reMatchValidName name then
    Except.error (InvalidNameError.mk ("Invalid " ++ entity ++ " name '" ++ name ++
      "': must be alphanumeric with underscores, cannot start with a digit"))
  else
    Except.ok name

end Schema

namespace Query

/-- `str.strip()` whitespace, at the ASCII subset the claims exercise
(Python also strips some further Unicode space characters). -/
def isPySpace (c : Char) : Bool :=
  c = ' ' || c = '\t' || c = '\n' || c = '\r' || c = '\x0b' || c = '\x0c'

/-- Python `v.strip()`. -/
def pyStrip (s : String) : String :=
  ⟨((s.data.dropWhile isPySpace).reverse.dropWhile isPySpace).reverse⟩

/-- Python `v.upper()` (ASCII case mapping, as `upper` behaves on the
ASCII keyword being compared against). -/
def pyUpper (s : String) : String :=
  ⟨s.data.map Char.toUpper⟩

/-- Python `s.startswith(pre)`. -/
def pyStartswith (s pre : String) : Bool :=
  pre.data.isPrefixOf s.data

/-- `memex/ops/query.py` `Query.validate_is_select`: strip, upper-case,
and require the `SELECT` keyword as a plain string prefix. -/
def validate_is_select (v : String) : Except String String :=
  let stripped := pyStrip v
  if !pyStartswith (pyUpper stripped) "SELECT" then
    Except.error "Query SQL must start with SELECT"
  else
    Except.ok v

/-- `memex/ops/query.py` `class Query`: a SELECT statement plus named
parameters (a Python dict, modelled as an association list). -/
structure Query where
  sql : String
  params : List (String × PyValue) := []
deriving DecidableEq, Repr

/-- Pydantic construction of `Query`: the `sql` field validator runs
before any I/O; `params` defaults to the empty dict. -/
def mkQuery (sql : String) (params : List (String × PyValue) := []) :
    Except String Query :=
  match validate_is_select sql with
  | Except.ok s => Except.ok { sql := s, params := params }
  | Except.error e => Except.error e

/-- `memex/ops/query.py` `class Insert`. -/
structure Insert where
  table : String
  data : List (String × PyValue)
deriving DecidableEq, Repr

/-- `memex/ops/query.py` `class Update`. -/
structure Update where
  table : String
  id : Int
  data : List (String × PyValue)
deriving DecidableEq, Repr

/-- `memex/ops/query.py` `class Delete`. -/
structure Delete where
  table : String
  id : Int
deriving DecidableEq, Repr

/-- The pydantic validators of `Insert`: valid table name, non-empty data,
valid column names.  `Nodup` records that `data` is a Python dict, whose
keys are necessarily distinct. -/
def Insert.Valid (op : Insert) : Prop :=
  _validate_name op.table = Except.ok op.table ∧
    op.data ≠ [] ∧
    (∀ k ∈ op.data.map Prod.fst, _validate_name k = Except.ok k) ∧
    (op.data.map Prod.fst).Nodup

instance (op : Insert) : Decidable op.Valid := by
  unfold Insert.Valid
  exact inferInstance

/-- The pydantic validators of `Update` (same shape as `Insert`). -/
def Update.Valid (op : Update) : Prop :=
  _validate_name op.table = Except.ok op.table ∧
    op.data ≠ [] ∧
    (∀ k ∈ op.data.map Prod.fst, _validate_name k = Except.ok k) ∧
    (op.data.map Prod.fst).Nodup

instance (op : Update) : Decidable op.Valid := by
  unfold Update.Valid
  exact inferInstance

/-- The pydantic validator of `Delete`: only the table name is checked. -/
def Delete.Valid (op : Delete) : Prop :=
  _validate_name op.table = Except.ok op.table

instance (op : Delete) : Decidable op.Valid := by
  unfold Delete.Valid
  exact inferInstance

/-- A stored row: column→value bindings in storage order (the `id` column
is an ordinary binding). -/
abbrev Row := List (String × PyValue)

/-- The SQLite database contents seen by the query executor: table name →
rows. -/
abbrev QDB := List (String × List Row)

/-- Rows of a table (empty for an absent table; theorems that depend on
the table assume it is present, since SQLite errors on a missing table). -/
def tableRows (db : QDB) (t : String) : List Row :=
  (db.lookup t).getD []

/-- Semantics of the pre-check `SELECT 1 FROM <t> WHERE id = :id` plus
`fetchone() is None`: does some row's `id` column equal the bound value? -/
def rowExists (db : QDB) (t : String) (i : Int) : Bool :=
  (tableRows db t).any fun r => r.lookup "id" = some (PyValue.int i)

/-- One `conn.execute(sql, params)` call: the SQL text and the bound named
parameters, exactly as passed to the driver. -/
abbrev Stmt := String × List (String × PyValue)

/-- Result of one executor call: the statements it executed in order, the
database afterwards, `cursor.lastrowid` for inserts, and the raised
`ValueError` message if any. -/
structure ExecOutcome where
  trace : List Stmt
  db : QDB
  lastrowid : Option Int := Option.none
  err : Option String := Option.none
deriving DecidableEq, Repr

/-- The SQL text `_execute_insert` builds:
`INSERT INTO {op.table} ({column_list}) VALUES ({placeholders})`, from the
table name and `op.data`'s keys in dict iteration order. -/
def insertSQL (op : Insert) : String :=
  let columns := op.data.map Prod.fst
  let placeholders := String.intercalate ", " (columns.map fun col => ":" ++ col)
  let column_list := String.intercalate ", " columns
  "INSERT INTO " ++ op.table ++ " (" ++ column_list ++ ") VALUES (" ++ placeholders ++ ")"

/-- Largest `id` value present in a table (`0` when none): used to model
the engine-assigned auto-increment row id. -/
def tableMaxId (rows : List Row) : Int :=
  rows.foldl
    (fun m r =>
      match r.lookup "id" with
      | some (PyValue.int i) => max m i
      | _ => m)
    0

/-- Append a row to a table of the database. -/
def dbInsertRow (db : QDB) (t : String) (row : Row) : QDB :=
  db.map fun p => if p.1 = t then (p.1, p.2 ++ [row]) else p

/-- `memex/ops/query.py` `_execute_insert`: one INSERT statement with
`op.data` passed as the bound parameters; returns `cursor.lastrowid`. -/
def _execute_insert (db : QDB) (op : Insert) : ExecOutcome :=
  let sql := insertSQL op
  let newId := tableMaxId (tableRows db op.table) + 1
  { trace := [(sql, op.data)],
    db := dbInsertRow db op.table (("id", PyValue.int newId) :: op.data),
    lastrowid := some newId }

/-- The SET clause `_execute_update` builds: `{col} = :{col}` joined over
`op.data`'s keys (iterating a dict yields its keys). -/
def set_clause (op : Update) : String :=
  String.intercalate ", " ((op.data.map Prod.fst).map fun col => col ++ " = :" ++ col)

/-- The SQL text of the UPDATE statement. -/
def updateSQL (op : Update) : String :=
  "UPDATE " ++ op.table ++ " SET " ++ set_clause op ++ " WHERE id = :id"

/-- Python `{**op.data, "id": op.id}`: the keys of `op.data` in order,
with the value at `"id"` overwritten by `op.id` when present, else the
binding `("id", op.id)` appended. -/
def mergeParams (data : List (String × PyValue)) (i : Int) : List (String × PyValue) :=
  if (data.map Prod.fst).contains "id" then
    data.map fun p => if p.1 = "id" then ("id", PyValue.int i) else p
  else
    data ++ [("id", PyValue.int i)]

/-- Resolution of a named placeholder `:k` against the bound parameters. -/
def bindLookup (params : List (String × PyValue)) (k : String) : PyValue :=
  (params.lookup k).getD PyValue.none

/-- Semantics of one `SET c = :c` assignment on a row.  (A row always
carries its table's columns; the append branch only concerns ill-formed
rows and keeps the function total.) -/
def setCol (r : Row) (c : String) (v : PyValue) : Row :=
  if (r.map Prod.fst).contains c then
    r.map fun p => if p.1 = c then (c, v) else p
  else
    r ++ [(c, v)]

/-- Effect of the UPDATE statement on one row: a row whose `id` equals
the bound `:id` gets each listed column assigned its bound value from the
merged parameters; other rows are untouched. -/
def updateRow (op : Update) (r : Row) : Row :=
  if r.lookup "id" = some (PyValue.int op.id) then
    (op.data.map Prod.fst).foldl
      (fun r' c => setCol r' c (bindLookup (mergeParams op.data op.id) c)) r
  else r

/-- Semantics of `UPDATE <t> SET … WHERE id = :id` with the merged
parameters bound. -/
def applyUpdate (db : QDB) (op : Update) : QDB :=
  db.map fun tp =>
    if tp.1 = op.table then (tp.1, tp.2.map (updateRow op)) else tp

/-- `memex/ops/query.py` `_execute_update`: LBYL pre-check, then the
UPDATE with `{**op.data, "id": op.id}` bound. -/
def _execute_update (db : QDB) (op : Update) : ExecOutcome :=
  let pre : Stmt :=
    ("SELECT 1 FROM " ++ op.table ++ " WHERE id = :id", [("id", PyValue.int op.id)])
  if !rowExists db op.table op.id then
    { trace := [pre], db := db,
      err := some ("Row with id " ++ toString op.id ++ " not found in table " ++ op.table) }
  else
    { trace := [pre, (updateSQL op, mergeParams op.data op.id)],
      db := applyUpdate db op }

/-- The SQL text of the DELETE statement. -/
def deleteSQL (op : Delete) : String :=
  "DELETE FROM " ++ op.table ++ " WHERE id = :id"

/-- Semantics of `DELETE FROM <t> WHERE id = :id`. -/
def applyDelete (db : QDB) (op : Delete) : QDB :=
  db.map fun tp =>
    if tp.1 = op.table then
      (tp.1, tp.2.filter fun r => decide (r.lookup "id" ≠ some (PyValue.int op.id)))
    else tp

/-- `memex/ops/query.py` `_execute_delete`: LBYL pre-check, then the
DELETE with only `id` bound. -/
def _execute_delete (db : QDB) (op : Delete) : ExecOutcome :=
  let pre : Stmt :=
    ("SELECT 1 FROM " ++ op.table ++ " WHERE id = :id", [("id", PyValue.int op.id)])
  if !rowExists db op.table op.id then
    { trace := [pre], db := db,
      err := some ("Row with id " ++ toString op.id ++ " not found in table " ++ op.table) }
  else
    { trace := [pre, (deleteSQL op, [("id", PyValue.int op.id)])],
      db := applyDelete db op }

end Query

namespace Db

/-- An audit ledger row as `record_schema_op` inserts it (`id` and
`applied_at` are engine-assigned defaults and not tracked here). -/
structure AuditRow where
  op_type : String
  op_json : String
deriving DecidableEq, Repr

/-- The storage state the schema side observes: which tables exist, and
the audit ledger contents. -/
structure SDB where
  tables : List String
  audit : List AuditRow
deriving DecidableEq, Repr

/-- One `conn.execute(sql, params)` call on the schema side: SQL text and
positional (qmark) parameters. -/
structure SStmt where
  sql : String
  params : List String := []
deriving DecidableEq, Repr

/-- An open connection: the in-transaction state plus the statements
executed on it, in order. -/
structure Conn where
  db : SDB
  trace : List SStmt
deriving DecidableEq, Repr

/-- The DDL text of `Database.ensure_schema_ops` (the source's multi-line
literal, with the whitespace normalized to single spaces). -/
def ensureSchemaOpsSQL : String :=
  "CREATE TABLE IF NOT EXISTS _schema_ops (id INTEGER PRIMARY KEY AUTOINCREMENT, " ++
    "op_type TEXT NOT NULL, op_json TEXT NOT NULL, " ++
    "applied_at TEXT NOT NULL DEFAULT (datetime('now')))"

/-- `Database.ensure_schema_ops`: run the `CREATE TABLE IF NOT EXISTS`
DDL; the ledger table is created only when absent. -/
def ensure_schema_ops (c : Conn) : Conn :=
  { db := { c.db with
      tables :=
        if c.db.tables.contains "_schema_ops" then c.db.tables
        else c.db.tables ++ ["_schema_ops"] },
    trace := c.trace ++ [{ sql := ensureSchemaOpsSQL }] }

/-- `Database.record_schema_op`: insert one audit row, binding the two
values as positional parameters. -/
def record_schema_op (c : Conn) (op_type op_json : String) : Conn :=
  { db := { c.db with audit := c.db.audit ++ [{ op_type := op_type, op_json := op_json }] },
    trace := c.trace ++
      [{ sql := "INSERT INTO _schema_ops (op_type, op_json) VALUES (?, ?)",
         params := [op_type, op_json] }] }

/-- The observable actions of the connection scope on its way out. -/
inductive ConnEvent where
  | commit
  | rollback
  | close
deriving DecidableEq, Repr

/-- What a completed `Database.connect` scope leaves behind: the durable
state, the commit/rollback/close events in order, and the body's result
(re-raised error included). -/
structure ConnectOutcome (α : Type) where
  durable : SDB
  events : List ConnEvent
  result : Except String α

/-- `Database.connect`: run the body on a fresh connection over the
durable state; `try: yield; commit / except: rollback; raise /
finally: close`.  A commit persists the connection's state; a rollback
leaves the durable state untouched. -/
def connect {α : Type} (durable : SDB) (body : Conn → Except String (α × Conn)) :
    ConnectOutcome α :=
  match body { db := durable, trace := [] } with
  | Except.ok (a, c) =>
    { durable := c.db, events := [ConnEvent.commit, ConnEvent.close],
      result := Except.ok a }
  | Except.error e =>
    { durable := durable, events := [ConnEvent.rollback, ConnEvent.close],
      result := Except.error e }

end Db

namespace Schema

/-- The `ColumnType` literal of `memex/ops/schema.py`. -/
inductive ColumnType where
  | text
  | integer
  | real
  | date
  | datetime
  | boolean
deriving DecidableEq, Repr

/-- pydantic `ColumnDef`. -/
structure ColumnDef where
  name : String
  type : ColumnType
  nullable : Bool := true
deriving DecidableEq, Repr

/-- pydantic `CreateTable`. -/
structure CreateTable where
  table : String
  columns : List ColumnDef
deriving DecidableEq, Repr

/-- pydantic `AddColumn`. -/
structure AddColumn where
  table : String
  column : String
  type : ColumnType
  nullable : Bool := true
deriving DecidableEq, Repr

/-- pydantic `DropColumn`. -/
structure DropColumn where
  table : String
  column : String
deriving DecidableEq, Repr

/-- The `SchemaOp` tagged union. -/
inductive SchemaOp where
  | createTable (op : CreateTable)
  | addColumn (op : AddColumn)
  | dropColumn (op : DropColumn)
deriving DecidableEq, Repr

/-- `_TYPE_MAP`: column type name → SQLite type keyword. -/
def _TYPE_MAP : ColumnType → String
  | ColumnType.text => "TEXT"
  | ColumnType.integer => "INTEGER"
  | ColumnType.real => "REAL"
  | ColumnType.date => "DATE"
  | ColumnType.datetime => "DATETIME"
  | ColumnType.boolean => "BOOLEAN"

/-- `_column_def`: `"{col.name} {sql_type}{nullable_clause}"`. -/
def _column_def (col : ColumnDef) : String :=
  let sql_type := _TYPE_MAP col.type
  let nullable_clause := if col.nullable then "" else " NOT NULL"
  col.name ++ " " ++ sql_type ++ nullable_clause

/-- `_transpile_create_table`: the implicit auto-increment `id` primary
key first, then the declared columns in order. -/
def _transpile_create_table (op : CreateTable) : String :=
  let col_defs := "id INTEGER PRIMARY KEY AUTOINCREMENT" :: op.columns.map _column_def
  let columns_sql := String.intercalate ", " col_defs
  "CREATE TABLE " ++ op.table ++ " (" ++ columns_sql ++ ")"

/-- `_transpile_add_column`. -/
def _transpile_add_column (op : AddColumn) : String :=
  let sql_type := _TYPE_MAP op.type
  let nullable_clause := if op.nullable then "" else " NOT NULL"
  "ALTER TABLE " ++ op.table ++ " ADD COLUMN " ++ op.column ++ " " ++
    sql_type ++ nullable_clause

/-- `_transpile_drop_column`. -/
def _transpile_drop_column (op : DropColumn) : String :=
  "ALTER TABLE " ++ op.table ++ " DROP COLUMN " ++ op.column

/-- `transpile`: exhaustive dispatch over the union. -/
def transpile : SchemaOp → String
  | SchemaOp.createTable op => _transpile_create_table op
  | SchemaOp.addColumn op => _transpile_add_column op
  | SchemaOp.dropColumn op => _transpile_drop_column op

/-- `_get_op_type`: the audit tag derived from the operation's variant. -/
def _get_op_type : SchemaOp → String
  | SchemaOp.createTable _ => "create_table"
  | SchemaOp.addColumn _ => "add_column"
  | SchemaOp.dropColumn _ => "drop_column"

/-- Python `name.lower()` (ASCII case mapping, as exercised here). -/
def pyLower (s : String) : String :=
  ⟨s.data.map Char.toLower⟩

/-- The pydantic validator of `ColumnDef`. -/
def ColumnDef.Valid (c : ColumnDef) : Prop :=
  _validate_name c.name "column" = Except.ok c.name

instance (c : ColumnDef) : Decidable c.Valid := by
  unfold ColumnDef.Valid
  exact inferInstance

/-- The pydantic validators of `CreateTable`: valid table name, valid
column names, at least one column, and no column literally named `id`
case-insensitively. -/
def CreateTable.Valid (op : CreateTable) : Prop :=
  _validate_name op.table "table" = Except.ok op.table ∧
    (∀ c ∈ op.columns, c.Valid) ∧
    op.columns ≠ [] ∧
    ∀ c ∈ op.columns, pyLower c.name ≠ "id"

instance (op : CreateTable) : Decidable op.Valid := by
  unfold CreateTable.Valid
  exact inferInstance

/-- A JSON string literal: the value between double quotes, with quote
and backslash escaped (the escapes of control characters are not
exercised by the identifiers at play). -/
def jsonStr (s : String) : String :=
  "\"" ++
    (⟨s.data.foldr
      (fun c acc =>
        if c = '"' then '\\' :: '"' :: acc
        else if c = '\\' then '\\' :: '\\' :: acc
        else c :: acc)
      []⟩ : String) ++ "\""

/-- JSON booleans. -/
def jsonBool : Bool → String
  | true => "true"
  | false => "false"

/-- A compact JSON object from already-rendered field values, fields in
declaration order as pydantic emits them. -/
def jsonObj (fields : List (String × String)) : String :=
  "\x7b" ++ String.intercalate "," (fields.map fun f => jsonStr f.1 ++ ":" ++ f.2) ++ "\x7d"

/-- The `ColumnType` literal's JSON value. -/
def ColumnType.literal : ColumnType → String
  | ColumnType.text => "text"
  | ColumnType.integer => "integer"
  | ColumnType.real => "real"
  | ColumnType.date => "date"
  | ColumnType.datetime => "datetime"
  | ColumnType.boolean => "boolean"

/-- `ColumnDef` as pydantic serializes it. -/
def ColumnDef.json (c : ColumnDef) : String :=
  jsonObj [("name", jsonStr c.name), ("type", jsonStr c.type.literal),
    ("nullable", jsonBool c.nullable)]

/-- `op.model_dump_json()`: the compact, field-stable serialization of the
operation. -/
def model_dump_json : SchemaOp → String
  | SchemaOp.createTable op =>
    jsonObj [("table", jsonStr op.table),
      ("columns", "[" ++ String.intercalate "," (op.columns.map ColumnDef.json) ++ "]")]
  | SchemaOp.addColumn op =>
    jsonObj [("table", jsonStr op.table), ("column", jsonStr op.column),
      ("type", jsonStr op.type.literal), ("nullable", jsonBool op.nullable)]
  | SchemaOp.dropColumn op =>
    jsonObj [("table", jsonStr op.table), ("column", jsonStr op.column)]

/-- Effect of the transpiled DDL on the storage state: `CREATE TABLE`
adds the table; `ALTER TABLE ADD/DROP COLUMN` leave the set of tables
unchanged (per-table column lists are not tracked at this level). -/
def applyDDL (db : Db.SDB) : SchemaOp → Db.SDB
  | SchemaOp.createTable op => { db with tables := db.tables ++ [op.table] }
  | SchemaOp.addColumn _ => db
  | SchemaOp.dropColumn _ => db

/-- `memex/ops/schema.py` `execute`: transpile, run the DDL on the
connection, then record the audit row via `Database.record_schema_op`. -/
def execute (c : Db.Conn) (op : SchemaOp) : Db.Conn :=
  let sql := transpile op
  let c1 : Db.Conn := { db := applyDDL c.db op, trace := c.trace ++ [{ sql := sql }] }
  Db.record_schema_op c1 (_get_op_type op) (model_dump_json op)

/-- The schema-operation unit of work as the call sites run it (the
`create_table`/`add_column` tools in `agent.py`): inside one connect
scope, ensure the audit ledger exists, then execute the operation. -/
def runSchemaOp (durable : Db.SDB) (op : SchemaOp) : Db.ConnectOutcome Unit :=
  Db.connect durable fun conn => Except.ok ((), execute (Db.ensure_schema_ops conn) op)

/-- The column rendering the claim describes: `<name> <TYPE>` with
` NOT NULL` appended exactly when `nullable` is false, types mapped
case-sensitively. -/
def claimTypeName : ColumnType → String
  | ColumnType.text => "TEXT"
  | ColumnType.integer => "INTEGER"
  | ColumnType.real => "REAL"
  | ColumnType.date => "DATE"
  | ColumnType.datetime => "DATETIME"
  | ColumnType.boolean => "BOOLEAN"

/-- Claim-side column definition text. -/
def claimColumnSQL (c : ColumnDef) : String :=
  c.name ++ " " ++ claimTypeName c.type ++ (if c.nullable = false then " NOT NULL" else "")

/-- Claim-side CREATE TABLE statement: implicit `id` column first, the
declared columns following in declared order. -/
def claimCreateTableSQL (t : String) (cols : List ColumnDef) : String :=
  "CREATE TABLE " ++ t ++ " (" ++
    String.intercalate ", "
      ("id INTEGER PRIMARY KEY AUTOINCREMENT" :: cols.map claimColumnSQL) ++ ")"

end Schema

namespace Introspection

/-- One row of `PRAGMA table_info`: name, declared type, `notnull`,
`dflt_value`, `pk` (the `cid` index is positional). -/
structure PragmaCol where
  name : String
  type : String
  notnull : Nat
  dflt_value : Option String
  pk : Nat
deriving DecidableEq, Repr

/-- One row of `sqlite_master`: the object's type tag (`"table"`,
`"view"`, `"index"`, …), its name, and — for tables — its column
metadata in storage order. -/
structure MasterObj where
  otype : String
  name : String
  cols : List PragmaCol
deriving DecidableEq, Repr

/-- The store as the introspector sees it. -/
structure Store where
  objects : List MasterObj
deriving DecidableEq, Repr

/-- `memex/db/introspection.py` `ColumnInfo`. -/
structure ColumnInfo where
  name : String
  type : String
  nullable : Bool := true
  primary_key : Bool := false
  default_value : Option String := Option.none
deriving DecidableEq, Repr

/-- `memex/db/introspection.py` `TableInfo`. -/
structure TableInfo where
  name : String
  columns : List ColumnInfo
deriving DecidableEq, Repr

/-- `name LIKE 'sqlite_%'` under SQLite's default LIKE semantics:
ASCII-case-insensitive, `_` matches any one character, `%` any tail — so
the pattern holds iff the name has at least 7 characters and its first
six, lower-cased, are `sqlite`. -/
def likeSqlitePattern (name : String) : Bool :=
  decide (7 ≤ name.data.length) &&
    decide ((name.data.take 6).map Char.toLower = "sqlite".data)

/-- `_get_columns`: the `PRAGMA table_info` rows of the table, in order;
`notnull=0` means nullable, `pk=1` flags the primary key. -/
def _get_columns (st : Store) (table_name : String) : List ColumnInfo :=
  match st.objects.find? fun o => o.name == table_name with
  | some o =>
    o.cols.map fun row =>
      { name := row.name, type := row.type,
        nullable := decide (row.notnull = 0),
        primary_key := decide (row.pk = 1),
        default_value := row.dflt_value }
  | Option.none => []

/-- The `sqlite_master` query of `get_schema`: user tables only (type
`table`, name not LIKE `sqlite_%`, name not `_schema_ops`), ordered by
name. -/
def userTableNames (st : Store) : List String :=
  ((st.objects.filter fun o =>
      o.otype == "table" && !likeSqlitePattern o.name && o.name != "_schema_ops").map
    fun o => o.name).mergeSort fun a b => a ≤ b

/-- `get_schema`: name → `TableInfo` for every user-visible table (a
Python dict built in iteration order, modelled as the association list). -/
def get_schema (st : Store) : List (String × TableInfo) :=
  (userTableNames st).map fun n => (n, { name := n, columns := _get_columns st n })

end Introspection

end Memex

/-! # Theorems -/

namespace Memex

/-! Helper lemmas about the matcher. -/

theorem matchTailDollar_iff (l : List Char) :
    matchTailDollar l = true ↔
      ((∀ x ∈ l, tailOk x = true) ∨
        ∃ l', l = l' ++ ['\n'] ∧ ∀ x ∈ l', tailOk x = true) := by
  induction l with
  | nil =>
    simp [matchTailDollar]
  | cons c cs ih =>
    simp only [matchTailDollar, dollarAt, Bool.or_eq_true, Bool.and_eq_true,
      decide_eq_true_eq, ih]
    constructor
    · rintro (h | ⟨hc, hcs | ⟨l', hl', hall⟩⟩)
      · right
        refine ⟨[], ?_, by simp⟩
        simpa using h
      · left
        intro x hx
        rcases List.mem_cons.mp hx with rfl | hx
        · exact hc
        · exact hcs x hx
      · right
        exact ⟨c :: l', by simp [hl'], by
          intro x hx
          rcases List.mem_cons.mp hx with rfl | hx
          · exact hc
          · exact hall x hx⟩
    · rintro (h | ⟨l', hl', hall⟩)
      · right
        exact ⟨h c (List.mem_cons_self c cs), Or.inl fun x hx => h x (List.mem_cons_of_mem c hx)⟩
      · cases l' with
        | nil =>
          left
          simpa using hl'
        | cons d l'' =>
          simp only [List.cons_append, List.cons.injEq] at hl'
          obtain ⟨he, hcs⟩ := hl'
          right
          refine ⟨by rw [he]; exact hall d (List.mem_cons_self d l''),
            Or.inr ⟨l'', hcs, ?_⟩⟩
          intro x hx
          exact hall x (List.mem_cons_of_mem d hx)

theorem reMatchValidName_iff (s : String) :
    reMatchValidName s = true ↔ MatchesNamePattern s := by
  unfold reMatchValidName MatchesNamePattern
  cases hs : s.data with
  | nil =>
    simp only [ValidNameChars]
    constructor
    · intro h; cases h
    · rintro (h | ⟨l, hl, h⟩)
      · exact absurd h id
      · exact absurd hl (by simp)
  | cons c cs =>
    simp only [Bool.and_eq_true, matchTailDollar_iff, ValidNameChars]
    constructor
    · rintro ⟨hc, hcs | ⟨l', rfl, hall⟩⟩
      · exact Or.inl ⟨hc, hcs⟩
      · exact Or.inr ⟨c :: l', rfl, hc, hall⟩
    · rintro (⟨hc, hcs⟩ | ⟨l, hl, h⟩)
      · exact ⟨hc, Or.inl hcs⟩
      · cases l with
        | nil => exact absurd hl (by simp [ValidNameChars] at h)
        | cons d l'' =>
          obtain ⟨hd, hall⟩ := h
          simp only [List.cons_append, List.cons.injEq] at hl
          obtain ⟨rfl, rfl⟩ := hl
          exact ⟨hd, Or.inr ⟨l'', rfl, hall⟩⟩

/-- C2: for every string `s`, identifier validation succeeds — returning
`s` unchanged, and returning nothing but `s` — if and only if `s` is
non-empty and matches `^[A-Za-z_][A-Za-z0-9_]*$` (with the source regex
engine's reading of `$`, which also matches just before one trailing
newline).  The validator is a pure function, so it has no side effects. -/
theorem validate_name_ok_iff_matches (s : String) :
    (Query._validate_name s = Except.ok s ↔ s ≠ "" ∧ MatchesNamePattern s) ∧
      (∀ t, Query._validate_name s = Except.ok t → t = s) := by
  refine ⟨⟨?_, ?_⟩, ?_⟩
  · intro h
    unfold Query._validate_name at h
    split at h
    · cases h
    · next hc =>
      simp only [Bool.or_eq_true, Bool.not_eq_true', decide_eq_true_eq, not_or] at hc
      obtain ⟨hs, hm⟩ := hc
      exact ⟨hs, (reMatchValidName_iff s).mp (by simpa using hm)⟩
  · rintro ⟨hs, hm⟩
    have hm' : reMatchValidName s = true := (reMatchValidName_iff s).mpr hm
    unfold Query._validate_name
    rw [if_neg]
    simp [hs, hm']
  · intro t ht
    unfold Query._validate_name at ht
    split at ht
    · cases ht
    · injection ht with h
      exact h.symm

/-- Witness for C2 at the concrete identifier `"abc"`. -/
theorem validate_name_ok_iff_matches_witness :
    Query._validate_name "abc" = Except.ok "abc" :=
  (validate_name_ok_iff_matches "abc").1.mpr
    ⟨by decide, (reMatchValidName_iff "abc").mp (by decide)⟩

/-- The last character of `a ++ b` is the last character of `b` when `b`
is non-empty. -/
theorem data_getLast?_append (a b : String) (hb : b.data ≠ []) :
    (a ++ b).data.getLast? = b.data.getLast? := by
  have hd : (a ++ b).data = a.data ++ b.data := by
    cases a; cases b; rfl
  rw [hd, List.getLast?_append]
  cases hg : b.data.getLast? with
  | none => exact absurd (List.getLast?_eq_none_iff.mp hg) hb
  | some x => rfl

/-- C8: every failure of the schema-side identifier validator is the one
error kind `InvalidNameError`, and the message produced for the empty
string differs from the message produced for any non-empty string that
mismatches the pattern. -/
theorem invalid_name_messages_distinguishable (entity s : String)
    (hne : s ≠ "") (hmm : reMatchValidName s = false) :
    ∃ m₁ m₂,
      Schema._validate_name "" entity = Except.error (Schema.InvalidNameError.mk m₁) ∧
      Schema._validate_name s entity = Except.error (Schema.InvalidNameError.mk m₂) ∧
      m₁ ≠ m₂ := by
  refine ⟨entity ++ " name cannot be empty",
    "Invalid " ++ entity ++ " name '" ++ s ++
      "': must be alphanumeric with underscores, cannot start with a digit",
    by simp [Schema._validate_name], ?_, ?_⟩
  · simp [Schema._validate_name, hne, hmm]
  · intro h
    have h' := congrArg (fun t => t.data.getLast?) h
    simp only at h'
    rw [data_getLast?_append entity " name cannot be empty" (by decide),
      data_getLast?_append _ "': must be alphanumeric with underscores, cannot start with a digit"
        (by decide)] at h'
    revert h'
    decide

/-! Helper lemmas about association-list lookup under column assignment. -/

theorem lookup_replaceCol_ne (r : Query.Row) (c k : String) (v : PyValue) (hkc : k ≠ c) :
    (r.map fun p => if p.1 = c then (c, v) else p).lookup k = r.lookup k := by
  induction r with
  | nil => rfl
  | cons p r ih =>
    obtain ⟨pk, pv⟩ := p
    by_cases hp : pk = c
    · subst hp
      have hk : (k == pk) = false := beq_eq_false_iff_ne.mpr hkc
      simp [List.lookup_cons, hk, ih]
    · simp only [List.map_cons, if_neg hp]
      cases hkb : (k == pk) with
      | true => simp [List.lookup_cons, hkb]
      | false => simp [List.lookup_cons, hkb, ih]

theorem lookup_replaceCol_self (r : Query.Row) (c : String) (v : PyValue)
    (hc : (r.map Prod.fst).contains c = true) :
    (r.map fun p => if p.1 = c then (c, v) else p).lookup c = some v := by
  induction r with
  | nil => simp at hc
  | cons p r ih =>
    obtain ⟨pk, pv⟩ := p
    by_cases hp : pk = c
    · subst hp
      simp [List.lookup_cons]
    · have hcpk : (c == pk) = false := beq_eq_false_iff_ne.mpr fun h => hp h.symm
      have hc' : (r.map Prod.fst).contains c = true := by
        simp only [List.map_cons, List.contains_cons, hcpk, Bool.false_or] at hc
        exact hc
      simp only [List.map_cons, if_neg hp, List.lookup_cons, hcpk, ih hc']

theorem lookup_of_not_contains (r : Query.Row) (c : String)
    (hc : (r.map Prod.fst).contains c = false) :
    r.lookup c = none := by
  rw [List.lookup_eq_none_iff]
  intro p hp
  simp only [bne_iff_ne, ne_eq]
  intro hcp
  have : (r.map Prod.fst).contains c = true := by
    have : c ∈ r.map Prod.fst := hcp ▸ List.mem_map_of_mem Prod.fst hp
    simpa using this
  rw [this] at hc
  cases hc

theorem setCol_lookup_self (r : Query.Row) (c : String) (v : PyValue) :
    (Query.setCol r c v).lookup c = some v := by
  unfold Query.setCol
  split
  · next hcont => exact lookup_replaceCol_self r c v hcont
  · next hcont =>
    rw [List.lookup_append, lookup_of_not_contains r c (by simpa using hcont)]
    simp [List.lookup_cons]

theorem setCol_lookup_ne (r : Query.Row) (c k : String) (v : PyValue) (hkc : k ≠ c) :
    (Query.setCol r c v).lookup k = r.lookup k := by
  unfold Query.setCol
  split
  · exact lookup_replaceCol_ne r c k v hkc
  · rw [List.lookup_append]
    have h1 : ([(c, v)] : Query.Row).lookup k = none := by
      simp [List.lookup_cons, beq_eq_false_iff_ne.mpr hkc]
    rw [h1]
    cases r.lookup k <;> rfl

theorem bindLookup_mergeParams_id (data : List (String × PyValue)) (i : Int) :
    Query.bindLookup (Query.mergeParams data i) "id" = PyValue.int i := by
  unfold Query.bindLookup Query.mergeParams
  split
  · next hcont =>
    rw [lookup_replaceCol_self data "id" (PyValue.int i) hcont]
    rfl
  · next hcont =>
    rw [List.lookup_append,
      lookup_of_not_contains data "id" (by simpa using hcont)]
    simp [List.lookup_cons]

theorem foldl_setCol_lookup_id (params : List (String × PyValue)) (w : PyValue)
    (hw : Query.bindLookup params "id" = w) (cols : List String) :
    ∀ r : Query.Row, r.lookup "id" = some w →
      (cols.foldl (fun r' c => Query.setCol r' c (Query.bindLookup params c)) r).lookup "id"
        = some w := by
  induction cols with
  | nil => intro r hr; exact hr
  | cons c cs ih =>
    intro r hr
    apply ih
    by_cases hc : c = "id"
    · subst hc
      rw [setCol_lookup_self, hw]
    · rw [setCol_lookup_ne _ _ _ _ fun h => hc h.symm]
      exact hr

/-- Witness for C8 at entity `"column"` and the invalid name `"9x"`. -/
theorem invalid_name_messages_distinguishable_witness :
    ∃ m₁ m₂,
      Schema._validate_name "" "column" = Except.error (Schema.InvalidNameError.mk m₁) ∧
      Schema._validate_name "9x" "column" = Except.error (Schema.InvalidNameError.mk m₂) ∧
      m₁ ≠ m₂ :=
  invalid_name_messages_distinguishable "column" "9x" (by decide) (by decide)

/-- C9: constructing a `Query` (Select) accepts exactly the strings whose
stripped form, upper-cased, has the six characters `SELECT` as its first
six characters — no word boundary is required after them, as the accepted
`"selection from t"` shows — and rejects every other string at
construction time; `params` defaults to the empty mapping. -/
theorem select_constructor_accepts_select_prefix :
    (∀ v params, Query.mkQuery v params =
        if (Query.pyUpper (Query.pyStrip v)).data.take 6 = "SELECT".data then
          Except.ok { sql := v, params := params }
        else
          Except.error "Query SQL must start with SELECT") ∧
      Query.mkQuery "selection from t" =
        Except.ok { sql := "selection from t", params := [] } := by
  have hiff : ∀ v : String,
      Query.pyStartswith (Query.pyUpper (Query.pyStrip v)) "SELECT" = true ↔
        (Query.pyUpper (Query.pyStrip v)).data.take 6 = "SELECT".data := by
    intro v
    unfold Query.pyStartswith
    rw [List.isPrefixOf_iff_prefix, List.prefix_iff_eq_take]
    have hlen : ("SELECT".data).length = 6 := by decide
    rw [hlen]
    exact eq_comm
  constructor
  · intro v params
    unfold Query.mkQuery Query.validate_is_select
    by_cases h : Query.pyStartswith (Query.pyUpper (Query.pyStrip v)) "SELECT" = true
    · rw [if_pos ((hiff v).mp h)]
      simp [h]
    · rw [if_neg fun hc => h ((hiff v).mpr hc)]
      have hf : Query.pyStartswith (Query.pyUpper (Query.pyStrip v)) "SELECT" = false :=
        Bool.not_eq_true _ |>.mp h
      simp [hf]
  · rfl

/-- C1: the SQL text generated for Insert, Update and Delete depends only
on the table name and the data keys, never on the data values; the
executor passes the values exclusively as bound named parameters alongside
the unchanged SQL text. -/
theorem generated_sql_independent_of_values :
    (∀ a b : Query.Insert, a.Valid → b.Valid → a.table = b.table →
        a.data.map Prod.fst = b.data.map Prod.fst →
        Query.insertSQL a = Query.insertSQL b) ∧
      (∀ a b : Query.Update, a.Valid → b.Valid → a.table = b.table →
        a.data.map Prod.fst = b.data.map Prod.fst →
        Query.updateSQL a = Query.updateSQL b) ∧
      (∀ a b : Query.Delete, a.Valid → b.Valid → a.table = b.table →
        Query.deleteSQL a = Query.deleteSQL b) ∧
      (∀ db (op : Query.Insert),
        (Query._execute_insert db op).trace = [(Query.insertSQL op, op.data)]) ∧
      (∀ db (op : Query.Update), Query.rowExists db op.table op.id = true →
        (Query._execute_update db op).trace =
          [("SELECT 1 FROM " ++ op.table ++ " WHERE id = :id",
              [("id", PyValue.int op.id)]),
            (Query.updateSQL op, Query.mergeParams op.data op.id)]) ∧
      (∀ db (op : Query.Delete), Query.rowExists db op.table op.id = true →
        (Query._execute_delete db op).trace =
          [("SELECT 1 FROM " ++ op.table ++ " WHERE id = :id",
              [("id", PyValue.int op.id)]),
            (Query.deleteSQL op, [("id", PyValue.int op.id)])]) := by
  refine ⟨?_, ?_, ?_, ?_, ?_, ?_⟩
  · intro a b _ _ htab hkeys
    simp only [Query.insertSQL, htab, hkeys]
  · intro a b _ _ htab hkeys
    simp only [Query.updateSQL, Query.set_clause, htab, hkeys]
  · intro a b _ _ htab
    simp only [Query.deleteSQL, htab]
  · intro db op
    rfl
  · intro db op hrow
    simp [Query._execute_update, hrow]
  · intro db op hrow
    simp [Query._execute_delete, hrow]

/-- Witness for C1: two Inserts into `people` with the same single key
`name` but different values — one value being the injection attempt
`'; DROP TABLE people; --` — generate the identical SQL string, and the
executor's only statement carries the value in the bound parameters. -/
theorem generated_sql_independent_of_values_witness :
    Query.insertSQL { table := "people", data := [("name", PyValue.str "Alice")] } =
      Query.insertSQL
        { table := "people",
          data := [("name", PyValue.str "'; DROP TABLE people; --")] } :=
  generated_sql_independent_of_values.1 _ _ (by decide) (by decide) rfl rfl

/-- C4: an Update or Delete whose id matches no row executes only the
pre-check `SELECT 1 FROM <table> WHERE id = :id`, raises the exact
message `Row with id {id} not found in table {table}`, and never executes
the mutating statement, so the database is unchanged. -/
theorem missing_row_fails_without_mutation :
    (∀ db (op : Query.Update), op.Valid → op.table ∈ db.map Prod.fst →
        Query.rowExists db op.table op.id = false →
        Query._execute_update db op =
          { trace := [("SELECT 1 FROM " ++ op.table ++ " WHERE id = :id",
              [("id", PyValue.int op.id)])],
            db := db,
            err := some ("Row with id " ++ toString op.id ++
              " not found in table " ++ op.table) }) ∧
      (∀ db (op : Query.Delete), op.Valid → op.table ∈ db.map Prod.fst →
        Query.rowExists db op.table op.id = false →
        Query._execute_delete db op =
          { trace := [("SELECT 1 FROM " ++ op.table ++ " WHERE id = :id",
              [("id", PyValue.int op.id)])],
            db := db,
            err := some ("Row with id " ++ toString op.id ++
              " not found in table " ++ op.table) }) := by
  constructor
  · intro db op _ _ hrow
    simp [Query._execute_update, hrow]
  · intro db op _ _ hrow
    simp [Query._execute_delete, hrow]

/-- Witness for C4 on the spec's example: `Update(table="people", id=999,
data={"name":"Ghost"})` against a `people` table with no row 999. -/
theorem missing_row_fails_without_mutation_witness :
    Query._execute_update [("people", [[("id", PyValue.int 1)]])]
        { table := "people", id := 999, data := [("name", PyValue.str "Ghost")] } =
      { trace := [("SELECT 1 FROM people WHERE id = :id", [("id", PyValue.int 999)])],
        db := [("people", [[("id", PyValue.int 1)]])],
        err := some "Row with id 999 not found in table people" } :=
  missing_row_fails_without_mutation.1 _ _ (by decide) (by decide) (by decide)

/-- The UPDATE semantics never change a row's `id` column: the merged
parameters bind `:id` to `op.id`, and a row is only updated when its `id`
already equals that value. -/
theorem updateRow_lookup_id (op : Query.Update) (r : Query.Row) :
    (Query.updateRow op r).lookup "id" = r.lookup "id" := by
  unfold Query.updateRow
  split
  · next hguard =>
    rw [foldl_setCol_lookup_id (Query.mergeParams op.data op.id) (PyValue.int op.id)
      (bindLookup_mergeParams_id op.data op.id) (op.data.map Prod.fst) r hguard, hguard]
  · rfl

theorem tableRows_applyUpdate (db : Query.QDB) (op : Query.Update) :
    Query.tableRows (Query.applyUpdate db op) op.table =
      (Query.tableRows db op.table).map (Query.updateRow op) := by
  unfold Query.tableRows Query.applyUpdate
  induction db with
  | nil => rfl
  | cons tp db ih =>
    obtain ⟨tn, rows⟩ := tp
    by_cases h : tn = op.table
    · subst h
      simp [List.lookup_cons]
    · have hb : (op.table == tn) = false := beq_eq_false_iff_ne.mpr fun he => h he.symm
      simp only [List.map_cons, if_neg h, List.lookup_cons, hb]
      exact ih

/-- C10: when `data` itself contains the key `"id"`, the executed UPDATE
binds the operation's `id` field — not `data["id"]` — as `:id` (the merge
`{**data, "id": op.id}` lets the operation's `id` win), and the `id`
column of every row of the table, the targeted row included, is unchanged
by the update. -/
theorem update_binds_op_id_over_data_id :
    ∀ db (op : Query.Update), op.Valid → "id" ∈ op.data.map Prod.fst →
      Query.rowExists db op.table op.id = true →
      Query.bindLookup (Query.mergeParams op.data op.id) "id" = PyValue.int op.id ∧
      (Query._execute_update db op).trace =
        [("SELECT 1 FROM " ++ op.table ++ " WHERE id = :id", [("id", PyValue.int op.id)]),
          (Query.updateSQL op, Query.mergeParams op.data op.id)] ∧
      (Query.tableRows (Query._execute_update db op).db op.table).map
          (fun r => r.lookup "id")
        = (Query.tableRows db op.table).map fun r => r.lookup "id" := by
  intro db op _ _ hrow
  have hdb : (Query._execute_update db op).db = Query.applyUpdate db op := by
    simp [Query._execute_update, hrow]
  refine ⟨bindLookup_mergeParams_id op.data op.id, by simp [Query._execute_update, hrow], ?_⟩
  rw [hdb, tableRows_applyUpdate, List.map_map]
  exact List.map_congr_left fun r _ => updateRow_lookup_id op r

/-- Witness for C10: `data` maps `"id"` to `99`, the operation's `id` is
`1`; the bound `:id` is `1` and the row keeps `id = 1`. -/
theorem update_binds_op_id_over_data_id_witness :
    Query.bindLookup
        (Query.mergeParams [("id", PyValue.int 99), ("name", PyValue.str "Bo")] 1) "id"
      = PyValue.int 1 ∧
    (Query._execute_update [("people", [[("id", PyValue.int 1), ("name", PyValue.str "Al")]])]
        { table := "people", id := 1,
          data := [("id", PyValue.int 99), ("name", PyValue.str "Bo")] }).trace =
      [("SELECT 1 FROM people WHERE id = :id", [("id", PyValue.int 1)]),
        ("UPDATE people SET id = :id, name = :name WHERE id = :id",
          [("id", PyValue.int 1), ("name", PyValue.str "Bo")])] ∧
    (Query.tableRows
        (Query._execute_update [("people", [[("id", PyValue.int 1), ("name", PyValue.str "Al")]])]
          { table := "people", id := 1,
            data := [("id", PyValue.int 99), ("name", PyValue.str "Bo")] }).db
        "people").map (fun r => r.lookup "id")
      = (Query.tableRows [("people", [[("id", PyValue.int 1), ("name", PyValue.str "Al")]])]
          "people").map fun r => r.lookup "id" :=
  update_binds_op_id_over_data_id
    [("people", [[("id", PyValue.int 1), ("name", PyValue.str "Al")]])]
    { table := "people", id := 1,
      data := [("id", PyValue.int 99), ("name", PyValue.str "Bo")] }
    (by decide) (by decide) (by decide)

/-- C3: for every validated `CreateTable`, the transpiler emits exactly
the statement `CREATE TABLE <table> (id <auto-increment integer primary
key>, <col1> <TYPE1>[ NOT NULL], …)`: the implicit `id` column first, the
declared columns in declared order, types mapped case-sensitively, and
` NOT NULL` appended exactly when `nullable` is false — checked against
the claim-side rendering and on the spec's example. -/
theorem create_table_transpile_shape :
    (∀ op : Schema.CreateTable, op.Valid →
        Schema.transpile (Schema.SchemaOp.createTable op) =
          Schema.claimCreateTableSQL op.table op.columns) ∧
      Schema.transpile (Schema.SchemaOp.createTable
          { table := "people",
            columns := [{ name := "name", type := Schema.ColumnType.text, nullable := false },
              { name := "active", type := Schema.ColumnType.boolean }] }) =
        "CREATE TABLE people (id INTEGER PRIMARY KEY AUTOINCREMENT, " ++
          "name TEXT NOT NULL, active BOOLEAN)" := by
  constructor
  · intro op _
    have h1 : Schema.transpile (Schema.SchemaOp.createTable op) =
        Schema._transpile_create_table op := rfl
    rw [h1]
    have hcols : op.columns.map Schema._column_def = op.columns.map Schema.claimColumnSQL := by
      apply List.map_congr_left
      intro c _
      unfold Schema._column_def Schema.claimColumnSQL
      cases c.type <;> cases hcn : c.nullable <;>
        simp [Schema._TYPE_MAP, Schema.claimTypeName, hcn]
    simp only [Schema._transpile_create_table, Schema.claimCreateTableSQL, hcols]
  · rfl

/-- Witness for C3 on the spec's example operation. -/
theorem create_table_transpile_shape_witness :
    Schema.transpile (Schema.SchemaOp.createTable
        { table := "people",
          columns := [{ name := "name", type := Schema.ColumnType.text, nullable := false },
            { name := "active", type := Schema.ColumnType.boolean }] }) =
      Schema.claimCreateTableSQL "people"
        [{ name := "name", type := Schema.ColumnType.text, nullable := false },
          { name := "active", type := Schema.ColumnType.boolean }] :=
  create_table_transpile_shape.1
    { table := "people",
      columns := [{ name := "name", type := Schema.ColumnType.text, nullable := false },
        { name := "active", type := Schema.ColumnType.boolean }] }
    (by decide)

/-- C5: one schema-operation unit of work runs, in order, (1) the
idempotent audit-ledger `CREATE TABLE IF NOT EXISTS`, (2) the transpiled
DDL, (3) exactly one audit insert whose `op_type` is derived from the
operation's variant tag and whose `op_json` is the serialized operation —
all inside the single connect scope the caller controls, which commits
them together. -/
theorem schema_execute_audit_steps :
    ∀ (conn : Db.Conn) (op : Schema.SchemaOp),
      (Schema.execute (Db.ensure_schema_ops conn) op).trace =
          conn.trace ++
            [{ sql := Db.ensureSchemaOpsSQL },
              { sql := Schema.transpile op },
              { sql := "INSERT INTO _schema_ops (op_type, op_json) VALUES (?, ?)",
                params := [Schema._get_op_type op, Schema.model_dump_json op] }] ∧
        (Schema.execute (Db.ensure_schema_ops conn) op).db.audit =
          conn.db.audit ++
            [{ op_type := Schema._get_op_type op, op_json := Schema.model_dump_json op }] ∧
        (Db.ensure_schema_ops (Db.ensure_schema_ops conn)).db.tables =
          (Db.ensure_schema_ops conn).db.tables ∧
        (∀ o, Schema._get_op_type (Schema.SchemaOp.createTable o) = "create_table") ∧
        (∀ o, Schema._get_op_type (Schema.SchemaOp.addColumn o) = "add_column") ∧
        (∀ o, Schema._get_op_type (Schema.SchemaOp.dropColumn o) = "drop_column") ∧
        ∀ durable, Schema.runSchemaOp durable op =
          { durable :=
              (Schema.execute (Db.ensure_schema_ops { db := durable, trace := [] }) op).db,
            events := [Db.ConnEvent.commit, Db.ConnEvent.close],
            result := Except.ok () } := by
  intro conn op
  refine ⟨?_, ?_, ?_, fun _ => rfl, fun _ => rfl, fun _ => rfl, fun durable => rfl⟩
  · cases op <;>
      simp [Schema.execute, Db.ensure_schema_ops, Db.record_schema_op, Schema.applyDDL,
        List.append_assoc]
  · cases op <;>
      simp [Schema.execute, Db.ensure_schema_ops, Db.record_schema_op, Schema.applyDDL]
  · unfold Db.ensure_schema_ops
    by_cases hm : "_schema_ops" ∈ conn.db.tables
    · simp [hm]
    · simp [hm]

/-- C6: the connection scope commits exactly when the body completes
normally and rolls back —  re-raising the exception and leaving the
durable state untouched — whenever the body fails; the connection is
closed in both cases. -/
theorem connect_commits_or_rolls_back {α : Type} (durable : Db.SDB)
    (body : Db.Conn → Except String (α × Db.Conn)) :
    (∀ a c, body { db := durable, trace := [] } = Except.ok (a, c) →
        Db.connect durable body =
          { durable := c.db, events := [Db.ConnEvent.commit, Db.ConnEvent.close],
            result := Except.ok a }) ∧
      (∀ e, body { db := durable, trace := [] } = Except.error e →
        Db.connect durable body =
          { durable := durable, events := [Db.ConnEvent.rollback, Db.ConnEvent.close],
            result := Except.error e }) ∧
      (Db.connect durable body).events.getLast? = some Db.ConnEvent.close := by
  refine ⟨?_, ?_, ?_⟩
  · intro a c h
    unfold Db.connect
    rw [h]
  · intro e h
    unfold Db.connect
    rw [h]
  · unfold Db.connect
    cases hb : body { db := durable, trace := [] } with
    | error e => rfl
    | ok p =>
      obtain ⟨a, c⟩ := p
      rfl

/-- Witness for C6: a body that returns `5` commits and closes; a body
that raises `"boom"` rolls back, closes, and re-raises. -/
theorem connect_commits_or_rolls_back_witness :
    Db.connect { tables := [], audit := [] } (fun c => Except.ok (5, c)) =
        { durable := { tables := [], audit := [] },
          events := [Db.ConnEvent.commit, Db.ConnEvent.close],
          result := Except.ok 5 } ∧
      Db.connect { tables := [], audit := [] }
          (fun _ => (Except.error "boom" : Except String (Nat × Db.Conn))) =
        { durable := { tables := [], audit := [] },
          events := [Db.ConnEvent.rollback, Db.ConnEvent.close],
          result := Except.error "boom" } :=
  ⟨(connect_commits_or_rolls_back { tables := [], audit := [] } fun c => Except.ok (5, c)).1
      5 { db := { tables := [], audit := [] }, trace := [] } rfl,
    (connect_commits_or_rolls_back { tables := [], audit := [] }
        fun _ => (Except.error "boom" : Except String (Nat × Db.Conn))).2.1 "boom" rfl⟩

/-! Helper lemmas for the introspector. -/

theorem lookup_map_pair {β : Type} (f : String → β) (names : List String) (n : String)
    (hn : n ∈ names) : (names.map fun m => (m, f m)).lookup n = some (f n) := by
  induction names with
  | nil => cases hn
  | cons m names ih =>
    by_cases h : n = m
    · subst h
      simp [List.lookup_cons]
    · have hb : (n == m) = false := beq_eq_false_iff_ne.mpr h
      have hn' : n ∈ names := by
        rcases List.mem_cons.mp hn with h' | h'
        · exact absurd h' h
        · exact h'
      simp [List.lookup_cons, hb, ih hn']

theorem find?_name_eq (st : List Introspection.MasterObj) (o : Introspection.MasterObj)
    (hnd : (st.map fun x => x.name).Nodup) (ho : o ∈ st) :
    st.find? (fun x => x.name == o.name) = some o := by
  induction st with
  | nil => cases ho
  | cons h t ih =>
    rcases List.mem_cons.mp ho with rfl | hot
    · simp
    · have hne : h.name ≠ o.name := by
        intro he
        have hmem : o.name ∈ t.map fun x => x.name := List.mem_map_of_mem _ hot
        rw [← he] at hmem
        exact (List.nodup_cons.mp hnd).1 hmem
      have hb : (h.name == o.name) = false := beq_eq_false_iff_ne.mpr hne
      rw [List.find?_cons_of_neg _ (by simp [hb]), ih (List.nodup_cons.mp hnd).2 hot]

/-- C7: introspection returns exactly the user-visible tables — objects
of type `table` whose name is not `sqlite_%`-like and not `_schema_ops`,
views excluded — an empty store yields the empty mapping rather than an
error, and each table's columns appear in storage order carrying name,
declared type, nullability, primary-key flag and optional default. -/
theorem get_schema_user_visible :
    (Introspection.get_schema { objects := [] } = []) ∧
      (∀ (st : Introspection.Store) (t : String),
        t ∈ (Introspection.get_schema st).map Prod.fst ↔
          ∃ o ∈ st.objects, o.name = t ∧ o.otype = "table" ∧
            Introspection.likeSqlitePattern t = false ∧ t ≠ "_schema_ops") ∧
      ∀ (st : Introspection.Store) (o : Introspection.MasterObj),
        (st.objects.map fun x => x.name).Nodup → o ∈ st.objects →
        o.otype = "table" → Introspection.likeSqlitePattern o.name = false →
        o.name ≠ "_schema_ops" →
        (Introspection.get_schema st).lookup o.name =
          some { name := o.name,
                 columns := o.cols.map fun row =>
                   { name := row.name, type := row.type,
                     nullable := decide (row.notnull = 0),
                     primary_key := decide (row.pk = 1),
                     default_value := row.dflt_value } } := by
  have hkeys : ∀ st : Introspection.Store,
      (Introspection.get_schema st).map Prod.fst = Introspection.userTableNames st := by
    intro st
    unfold Introspection.get_schema
    rw [List.map_map]
    exact List.map_id _
  have hmemnames : ∀ (st : Introspection.Store) (t : String),
      t ∈ Introspection.userTableNames st ↔
        ∃ o ∈ st.objects, o.name = t ∧ o.otype = "table" ∧
          Introspection.likeSqlitePattern t = false ∧ t ≠ "_schema_ops" := by
    intro st t
    unfold Introspection.userTableNames
    rw [List.mem_mergeSort]
    simp only [List.mem_map, List.mem_filter, Bool.and_eq_true, Bool.not_eq_true',
      beq_iff_eq, bne_iff_ne, ne_eq]
    aesop
  refine ⟨?_, ?_, ?_⟩
  · simp [Introspection.get_schema, Introspection.userTableNames]
  · intro st t
    rw [hkeys st]
    exact hmemnames st t
  · intro st o hnd ho hty hlike hops
    have hmem : o.name ∈ Introspection.userTableNames st :=
      (hmemnames st o.name).mpr ⟨o, ho, rfl, hty, hlike, hops⟩
    unfold Introspection.get_schema
    rw [lookup_map_pair _ _ _ hmem]
    have hcols : Introspection._get_columns st o.name =
        o.cols.map fun row =>
          { name := row.name, type := row.type,
            nullable := decide (row.notnull = 0),
            primary_key := decide (row.pk = 1),
            default_value := row.dflt_value } := by
      unfold Introspection._get_columns
      rw [find?_name_eq st.objects o hnd ho]
    rw [hcols]

/-- Witness for C7 at a store holding a user table, a view, an
engine-internal table and the audit ledger. -/
theorem get_schema_user_visible_witness :
    (Introspection.get_schema
        { objects :=
            [{ otype := "table", name := "people",
               cols := [{ name := "id", type := "INTEGER", notnull := 0,
                          dflt_value := Option.none, pk := 1 }] },
             { otype := "view", name := "v_people", cols := [] },
             { otype := "table", name := "sqlite_sequence", cols := [] },
             { otype := "table", name := "_schema_ops", cols := [] }] }).lookup "people" =
      some { name := "people",
             columns := [{ name := "id", type := "INTEGER", nullable := true,
                           primary_key := true, default_value := Option.none }] } :=
  get_schema_user_visible.2.2
    { objects :=
        [{ otype := "table", name := "people",
           cols := [{ name := "id", type := "INTEGER", notnull := 0,
                      dflt_value := Option.none, pk := 1 }] },
         { otype := "view", name := "v_people", cols := [] },
         { otype := "table", name := "sqlite_sequence", cols := [] },
         { otype := "table", name := "_schema_ops", cols := [] }] }
    { otype := "table", name := "people",
      cols := [{ name := "id", type := "INTEGER", notnull := 0,
                 dflt_value := Option.none, pk := 1 }] }
    (by decide) (by decide) rfl (by decide) (by decide)

end Memex
